import Mathlib

/-!
Verification of `src/outlook_opener.py` (outlook_searchlook).

The Python program is embedded shallowly: the pure string manipulation of
`generate_mexican_email` becomes Lean functions on `String`; the browser
driver is abstracted into environment records that record, for each wait /
click primitive the controller performs, whether it succeeded, which option
elements were rendered and which of them were visible; a Playwright
`TimeoutError` escaping a function is modelled by `Except.error`.

Python's Unicode-aware character predicates (`str.isalnum`, `str.isspace`,
`str.lower`) are modelled exactly on the Basic Latin and Latin-1 Supplement
ranges (code points below 0x100); code points above 0xFF are treated as
non-alphanumeric, non-space and case-less.
-/

namespace OutlookOpener

/-- Python `str.isspace` for one character: ASCII whitespace including the
separator control characters U+001C–U+001F, plus the Latin-1 whitespace
code points U+0085 and U+00A0. -/
def pyIsSpace (c : Char) : Bool :=
  c = ' ' || c = '\t' || c = '\n' || c = '\r' ||
  c.toNat = 0x0b || c.toNat = 0x0c ||
  (0x1c ≤ c.toNat && c.toNat ≤ 0x1f) ||
  c.toNat = 0x85 || c.toNat = 0xa0

/-- Python `str.isalnum` for one character: ASCII letters and digits, plus
the Latin-1 Supplement alphanumerics (ª ² ³ µ ¹ º ¼ ½ ¾ and the accented
letters U+00C0–U+00FF except × and ÷). -/
def pyIsAlnum (c : Char) : Bool :=
  c.isAlphanum ||
  c.toNat = 0xaa || c.toNat = 0xb2 || c.toNat = 0xb3 || c.toNat = 0xb5 ||
  c.toNat = 0xb9 || c.toNat = 0xba ||
  (0xbc ≤ c.toNat && c.toNat ≤ 0xbe) ||
  (0xc0 ≤ c.toNat && c.toNat ≤ 0xff && c.toNat ≠ 0xd7 && c.toNat ≠ 0xf7)

/-- Python `str.lower` for one character (ASCII and Latin-1 uppercase). -/
def pyToLower (c : Char) : Char :=
  if 'A' ≤ c && c ≤ 'Z' then Char.ofNat (c.toNat + 32)
  else if 0xc0 ≤ c.toNat && c.toNat ≤ 0xde && c.toNat ≠ 0xd7 then Char.ofNat (c.toNat + 32)
  else c

/-- Python `str.lower`. -/
def pyLower (s : String) : String := ⟨s.data.map pyToLower⟩

/-- Python `str.strip()`: drop leading and trailing whitespace. -/
def pyStrip (s : String) : String :=
  ⟨((s.data.dropWhile pyIsSpace).reverse.dropWhile pyIsSpace).reverse⟩

/-- Worker for Python `str.split()` (no separator argument): split on runs
of whitespace, producing no empty tokens. `acc` holds the characters of the
token currently being read, in reverse. -/
def pySplitGo : List Char → List Char → List String
  | [], acc => if acc.isEmpty then [] else [⟨acc.reverse⟩]
  | c :: cs, acc =>
    if pyIsSpace c then
      if acc.isEmpty then pySplitGo cs [] else ⟨acc.reverse⟩ :: pySplitGo cs []
    else pySplitGo cs (c :: acc)

/-- Python `str.split()` with no arguments. -/
def pySplit (s : String) : List String := pySplitGo s.data []

/-- Worker locating the first occurrence of the literal `"->"`:
models both Python's `"->" in content` test and `content.split("->", 1)`. -/
def splitArrowGo : List Char → List Char → Option (String × String)
  | '-' :: '>' :: rest, acc => some (⟨acc.reverse⟩, ⟨rest⟩)
  | c :: cs, acc => splitArrowGo cs (c :: acc)
  | [], _ => none

/-- Split a string at the first `"->"`; `none` when the separator is absent
(mirrors `content.split("->", 1)` guarded by `"->" in content`). -/
def splitFirstArrow (s : String) : Option (String × String) := splitArrowGo s.data []

/-- The filter of line 71: `ch.isalnum() or ch == "_"`. -/
def keepChar (c : Char) : Bool := pyIsAlnum c || c = '_'

/-- Line 71: `handle = "".join(ch for ch in handle if ch.isalnum() or ch == "_")`. -/
def sanitizeHandle (s : String) : String := ⟨s.data.filter keepChar⟩

/-- Stated from the spec, for comparison with `sanitizeHandle`: filtering to
the ASCII class `[A-Za-z0-9_]` only. -/
def specSanitize (s : String) : String :=
  ⟨s.data.filter (fun c => c.isAlphanum || c = '_')⟩

/-- `pat` begins the character list `l`. -/
def startsWithChars : List Char → List Char → Bool
  | [], _ => true
  | _ :: _, [] => false
  | a :: as, b :: bs => (a = b) && startsWithChars as bs

/-- `pat` occurs somewhere in `l`: it begins some suffix of `l`. -/
def containsGo (pat : List Char) : List Char → Bool
  | [] => startsWithChars pat []
  | c :: cs => startsWithChars pat (c :: cs) || containsGo pat cs

/-- Python `pat in s` (substring containment) over characters. -/
def strContains (s pat : String) : Bool := containsGo pat.data s.data

/-- Decimal digits of `n`, most significant first, appended before `acc`
(models Python's `str` / f-string formatting of a non-negative int). -/
def natReprAux : Nat → List Char → List Char
  | 0, acc => acc
  | n + 1, acc => natReprAux ((n + 1) / 10) (Nat.digitChar ((n + 1) % 10) :: acc)
decreasing_by exact Nat.div_lt_self (Nat.succ_pos n) (by decide)

/-- Decimal representation of a natural number. -/
def natRepr (n : Nat) : String := if n = 0 then "0" else ⟨natReprAux n []⟩

/-- Python `random.randint(lo, hi)` (inclusive bounds), driven by an
abstract draw `r`. -/
def randint (lo hi r : Nat) : Nat := lo + r % (hi - lo + 1)

/-- The `(display name, handle)` pair produced by the identity generator. -/
structure Identity where
  displayName : String
  handle : String
deriving Repr, DecidableEq

/-- How a call to `generate_mexican_email` can fail: `upstream` is the
`RuntimeError` of line 59 (non-200 Groq status); `parse` is the Python
exception escaping `resp.json()["choices"][0]["message"]["content"]` when
the 200 response body is not of the expected shape. -/
inductive GenError
  | upstream (status : Nat)
  | parse
deriving Repr, DecidableEq

/-- Lines 61–72: strip the completion, split at the first `->` (name part,
handle part, each stripped) or fall back to the fixed name `Carlos Ramirez`
with a random 3-digit suffix, then sanitize the handle. -/
def parseCompletion (content : String) (r : Nat) : Identity :=
  let c := pyStrip content
  let p :=
    match splitFirstArrow c with
    | some (namePart, handlePart) => (pyStrip namePart, pyStrip handlePart)
    | none =>
        ("Carlos" ++ " " ++ "Ramirez",
         pyLower "Carlos" ++ "_" ++ pyLower "Ramirez" ++ "_" ++ natRepr (randint 100 999 r))
  { displayName := p.1, handle := sanitizeHandle p.2 }

/-- Lines 43–72, `generate_mexican_email`: the HTTP round trip is abstracted
to its observable `status` and the completion-content extraction
`resp.json()["choices"][0]["message"]["content"]`, which is `none` when the
body does not have that shape (in Python, an uncaught exception). -/
def generate_mexican_email (status : Nat) (body : Option String) (r : Nat) :
    Except GenError Identity :=
  if status ≠ 200 then .error (.upstream status)
  else
    match body with
    | none => .error .parse
    | some content => .ok (parseCompletion content r)

/-- Lines 219–220: `first_name, last_name = name.split()[0], name.split()[-1]`.
`none` models the `IndexError` Python raises when `name.split()` is empty. -/
def derive_names (name : String) : Option (String × String) :=
  match pySplit name with
  | [] => none
  | t :: ts => some (t, ts.getLastD t)

/-- Line 220: `password = f"{first_name.lower()}@12345"`. -/
def derive_password (first : String) : String := pyLower first ++ "@12345"

/-- How the post-acceptance derivation (lines 219–220) can fail. -/
inductive PostError
  | indexError
deriving Repr, DecidableEq

/-- Lines 219–220 as one step on the accepted Identity: first name, last
name, and the derived password; `IndexError` when the display name has no
whitespace-separated tokens. -/
def post_acceptance (ident : Identity) : Except PostError (String × String × String) :=
  match derive_names ident.displayName with
  | none => .error .indexError
  | some (f, l) => .ok (f, l, derive_password f)

/-- One inline alert element as the controller observes it (lines 207–212):
its visibility and its `inner_text()`. -/
structure AlertElem where
  visible : Bool
  text : String
deriving Repr, DecidableEq

/-- Lines 208–212: `" ".join(alerts.nth(i).inner_text().strip() ... if
alerts.nth(i).is_visible())`. -/
def alert_text (alerts : List AlertElem) : String :=
  String.intercalate " " ((alerts.filter (·.visible)).map fun a => pyStrip a.text)

/-- The page state one iteration of the handle loop observes:
whether `try_fill_email` raised a `PlaywrightTimeoutError` (line 201), and
the alert elements rendered after submission. -/
structure HandleEnv where
  fillTimeout : Bool
  alerts : List AlertElem
deriving Repr, DecidableEq

/-- Lines 195–217, the `while True` handle loop of `main`, with explicit
fuel. Iteration `i` consumes generator call `i` (`idents i`) and page state
`env i`; on a fill timeout the controller reloads and continues, on an
alert containing `"already"` it discards the candidate and continues, and
otherwise it accepts the current candidate. Returns the accepted Identity
together with the index of the accepting iteration. -/
def handle_loop (idents : Nat → Identity) (env : Nat → HandleEnv) :
    Nat → Nat → Option (Identity × Nat)
  | 0, _ => none
  | fuel + 1, i =>
    if (env i).fillTimeout then handle_loop idents env fuel (i + 1)
    else if strContains (alert_text (env i).alerts) "already" then
      handle_loop idents env fuel (i + 1)
    else some (idents i, i)

/-- One `[role="option"]` element: visibility and `inner_text()`. -/
structure UIOption where
  visible : Bool
  text : String
deriving Repr, DecidableEq

instance : Inhabited UIOption := ⟨⟨false, ""⟩⟩

/-- Lines 103 / 134: `[i for i in range(total) if options.nth(i).is_visible()]`. -/
def visible_indices (opts : List UIOption) : List Nat :=
  (List.range opts.length).filter fun i => (opts.getD i default).visible

/-- Lines 99–104 / 129–135 common tail: if the option list is empty return
`none` (the Python `return False`); otherwise `random.choice` (driven by
draw `r`) over `visible_indices or [0]`, returning the clicked index. -/
def select_pick (opts : List UIOption) (r : Nat) : Option Nat :=
  if opts.length = 0 then none
  else
    let pool := if (visible_indices opts).isEmpty then [0] else visible_indices opts
    pool[r % pool.length]?

/-- The one exception the browser driver raises in this model. -/
inductive PwError
  | timeout
deriving Repr, DecidableEq

/-- Page behaviour observed by `select_random_option_from_combobox`:
whether the scroll+click try-block succeeded, whether `[role="option"]`
elements appeared within the (unguarded) wait, the option elements, and the
random draw. -/
structure ComboEnv where
  clickOk : Bool
  optionsAppear : Bool
  opts : List UIOption
  draw : Nat
deriving Repr, DecidableEq

/-- Lines 88–108, `select_random_option_from_combobox`: a click timeout is
caught (`return False`); the `wait_for_selector` on line 97 is NOT guarded,
so its timeout escapes as an exception; an empty option list yields
`False`; otherwise a visible-preferring random option is clicked. -/
def select_random_option_from_combobox (e : ComboEnv) : Except PwError Bool :=
  if !e.clickOk then .ok false
  else if !e.optionsAppear then .error .timeout
  else
    match select_pick e.opts e.draw with
    | none => .ok false
    | some _ => .ok true

/-- Page behaviour observed by `select_month`: whether the expand-icon
scroll+click try-block succeeded, whether the first `wait_for_selector`
(line 122) succeeded, whether the wait after the retried click (line 126)
succeeded, the option elements, and the random draw. -/
structure MonthEnv where
  clickOk : Bool
  wait1Ok : Bool
  retryWaitOk : Bool
  opts : List UIOption
  draw : Nat
deriving Repr, DecidableEq

/-- Lines 111–139, `select_month`: an expand-icon click timeout is caught
(`return False`); a timeout of the first option wait is caught and the
click retried, but the second wait (line 126) is NOT guarded, so a second
timeout escapes; then the shared option-picking tail runs. -/
def select_month (e : MonthEnv) : Except PwError Bool :=
  if !e.clickOk then .ok false
  else if !e.wait1Ok && !e.retryWaitOk then .error .timeout
  else
    match select_pick e.opts e.draw with
    | none => .ok false
    | some _ => .ok true

/-- `select_month e` escapes with an uncaught `PlaywrightTimeoutError`. -/
def month_raises (e : MonthEnv) : Bool := e.clickOk && (!e.wait1Ok && !e.retryWaitOk)

/-- `select_random_option_from_combobox e` escapes with an uncaught
`PlaywrightTimeoutError`. -/
def combo_raises (e : ComboEnv) : Bool := e.clickOk && !e.optionsAppear

/-- Page behaviour observed by `fill_password`: whether the password field
appeared within the (unguarded) 15s wait of line 83. -/
structure PasswordEnv where
  fieldAppears : Bool
deriving Repr, DecidableEq

/-- Lines 82–85, `fill_password`: the wait is not guarded, so a timeout
escapes; otherwise the password is typed and the form advanced. -/
def fill_password (e : PasswordEnv) : Except PwError Unit :=
  if !e.fieldAppears then .error .timeout else .ok ()

/-- Page behaviour observed by `fill_birthdate`: the month dropdown's first
attempt, the retry attempt `fill_birthdate` makes when the first returns
`False` (lines 144–147), the day dropdown, and the year draw. -/
structure BirthdateEnv where
  month1 : MonthEnv
  month2 : MonthEnv
  day : ComboEnv
  yearDraw : Nat
deriving Repr, DecidableEq

/-- Lines 142–157, `fill_birthdate`: `select_month`, retried once at this
level if it returns `False`; then the day combobox; then a random year in
[1990, 2002] is typed and the form advanced. -/
def fill_birthdate (e : BirthdateEnv) : Except PwError Nat := do
  let ok1 ← select_month e.month1
  if !ok1 then
    let _ ← select_month e.month2
  let _ ← select_random_option_from_combobox e.day
  pure (randint 1990 2002 e.yearDraw)

/-- Page behaviour observed by `fill_first_last_name`: whether the name
inputs appeared within the guarded wait of line 163. -/
structure NameEnv where
  inputsAppear : Bool
deriving Repr, DecidableEq

/-- Lines 160–169, `fill_first_last_name`: the wait IS guarded, so a
timeout is absorbed with an error message; the function never raises. -/
def fill_first_last_name (e : NameEnv) : Except PwError Unit :=
  if !e.inputsAppear then .ok ()
  else .ok ()

/-- Outcome of `page.wait_for_selector("p:has-text('Press and hold')")` on
line 232: the marker appeared, the wait timed out, or some other exception
was raised. -/
inductive ChallengeOutcome
  | found
  | timedOut
  | otherError
deriving Repr, DecidableEq

/-- What the challenge-detection step reports. -/
inductive ChallengeResult
  | manualActionRequired
  | warnedAbsent
deriving Repr, DecidableEq

/-- Lines 231–236: the wait sits in a `try` with a bare `except:`, so every
non-found outcome is absorbed into the warning branch; a found marker
signals the operator (print + `page.pause()`). -/
def challenge_check (o : ChallengeOutcome) : ChallengeResult :=
  match o with
  | .found => .manualActionRequired
  | .timedOut => .warnedAbsent
  | .otherError => .warnedAbsent

/-- The page behaviour of everything `main` does after the handle loop
accepts a candidate (lines 219–238). -/
structure LaterEnv where
  password : PasswordEnv
  birthdate : BirthdateEnv
  nameEnv : NameEnv
  challenge : ChallengeOutcome
deriving Repr, DecidableEq

/-- The state in which the run reaches the terminal
`input("Press Enter to close...")` of line 238. -/
structure FinalState where
  challengeResult : ChallengeResult
  reachedTerminalPause : Bool
deriving Repr, DecidableEq

/-- Lines 219–238 of `main`, after the handle loop: password entry,
birthdate entry, name entry, challenge detection, terminal pause. An
`Except.error` is a `PlaywrightTimeoutError` propagating out of `main`
(abnormal termination); `.ok` is the run reaching the terminal pause. -/
def main_later (e : LaterEnv) : Except PwError FinalState := do
  let _ ← fill_password e.password
  let _ ← fill_birthdate e.birthdate
  let _ ← fill_first_last_name e.nameEnv
  pure { challengeResult := challenge_check e.challenge, reachedTerminalPause := true }

/-! ### Helper lemmas -/

theorem data_append (a b : String) : (a ++ b).data = a.data ++ b.data := rfl

theorem filter_keep_idem (l : List Char) :
    (l.filter keepChar).filter keepChar = l.filter keepChar := by
  induction l with
  | nil => rfl
  | cons c cs ih => by_cases h : keepChar c <;> simp [List.filter_cons, h, ih]

theorem sanitize_chars (s : String) : ∀ c ∈ (sanitizeHandle s).data, keepChar c = true := by
  intro c hc
  exact (List.mem_filter.mp hc).2

theorem sanitize_eq_self (s : String) (h : ∀ c ∈ s.data, keepChar c = true) :
    sanitizeHandle s = s := by
  cases s with
  | mk l => exact congrArg String.mk (List.filter_eq_self.mpr h)

theorem digitChar_isDigit (k : Nat) (h : k < 10) : (Nat.digitChar k).isDigit = true := by
  interval_cases k <;> decide

theorem natReprAux_digit (n : Nat) :
    ∀ acc, (∀ c ∈ acc, c.isDigit = true) → ∀ c ∈ natReprAux n acc, c.isDigit = true := by
  induction n using Nat.strong_induction_on with
  | _ n ih =>
    intro acc hacc c hc
    match n, hc with
    | 0, hc => exact hacc c (by rw [natReprAux] at hc; exact hc)
    | m + 1, hc =>
      rw [natReprAux] at hc
      refine ih ((m + 1) / 10) (Nat.div_lt_self (Nat.succ_pos m) (by decide)) _ ?_ c hc
      intro d hd
      rcases List.mem_cons.mp hd with h1 | h2
      · exact h1 ▸ digitChar_isDigit _ (Nat.mod_lt _ (by decide))
      · exact hacc d h2

theorem natRepr_digit (n : Nat) : ∀ c ∈ (natRepr n).data, c.isDigit = true := by
  unfold natRepr
  by_cases h : n = 0
  · simp [h]
  · simpa [h] using natReprAux_digit n [] (by simp)

theorem keepChar_of_digit (c : Char) (h : c.isDigit = true) : keepChar c = true := by
  simp [keepChar, pyIsAlnum, Char.isAlphanum, h]

theorem fallback_handle (k : Nat) :
    sanitizeHandle (pyLower "Carlos" ++ "_" ++ pyLower "Ramirez" ++ "_" ++ natRepr k) =
      "carlos_ramirez_" ++ natRepr k := by
  have hlow : (pyLower "Carlos" : String) = "carlos" := by decide
  have hlow2 : (pyLower "Ramirez" : String) = "ramirez" := by decide
  rw [hlow, hlow2]
  apply String.ext
  show List.filter keepChar (("carlos" ++ "_" ++ "ramirez" ++ "_" ++ natRepr k).data) = _
  rw [show ("carlos" ++ "_" ++ "ramirez" ++ "_" ++ natRepr k : String).data =
        ("carlos_ramirez_" : String).data ++ (natRepr k).data from by
      simp [data_append]]
  rw [data_append, List.filter_append]
  rw [show List.filter keepChar ("carlos_ramirez_" : String).data =
        ("carlos_ramirez_" : String).data from by decide]
  rw [List.filter_eq_self.mpr fun c hc => keepChar_of_digit c (natRepr_digit k c hc)]

theorem pySplitGo_all_space (cs : List Char) (h : ∀ c ∈ cs, pyIsSpace c = true) :
    pySplitGo cs [] = [] := by
  induction cs with
  | nil => rfl
  | cons c cs ih =>
    have hc : pyIsSpace c = true := h c (List.mem_cons_self c cs)
    simp only [pySplitGo, hc, if_pos rfl, List.isEmpty_nil, if_true]
    exact ih fun d hd => h d (List.mem_cons_of_mem c hd)

theorem handle_loop_start_le (idents : Nat → Identity) (env : Nat → HandleEnv) :
    ∀ fuel i p, handle_loop idents env fuel i = some p → i ≤ p.2 := by
  intro fuel
  induction fuel with
  | zero => intro i p h; simp [handle_loop] at h
  | succ fuel ih =>
    intro i p h
    rw [handle_loop] at h
    by_cases h1 : (env i).fillTimeout
    · simp only [h1, if_true] at h
      exact Nat.le_of_succ_le (ih (i + 1) p h)
    · simp only [h1, if_false] at h
      by_cases h2 : strContains (alert_text (env i).alerts) "already"
      · simp only [h2, if_true] at h
        exact Nat.le_of_succ_le (ih (i + 1) p h)
      · simp only [h2, if_false] at h
        cases h
        exact Nat.le_refl i

theorem visible_indices_spec (opts : List UIOption) (i : Nat) :
    i ∈ visible_indices opts ↔ i < opts.length ∧ (opts.getD i default).visible = true := by
  simp [visible_indices, List.mem_filter, List.mem_range]

theorem select_pick_of_visible (opts : List UIOption) (r : Nat)
    (hne : opts.length ≠ 0) (hvis : visible_indices opts ≠ []) :
    ∃ i, select_pick opts r = some i ∧ i ∈ visible_indices opts := by
  unfold select_pick
  rw [if_neg hne]
  simp only [List.isEmpty_iff, hvis, if_neg]
  have hlen : 0 < (visible_indices opts).length := List.length_pos.mpr hvis
  have hlt : r % (visible_indices opts).length < (visible_indices opts).length :=
    Nat.mod_lt _ hlen
  refine ⟨(visible_indices opts)[r % (visible_indices opts).length], ?_, ?_⟩
  · exact List.getElem?_eq_getElem hlt
  · exact List.getElem_mem _

theorem select_pick_no_visible (opts : List UIOption) (r : Nat)
    (hne : opts.length ≠ 0) (hvis : visible_indices opts = []) :
    select_pick opts r = some 0 := by
  unfold select_pick
  rw [if_neg hne]
  simp [hvis, Nat.mod_one]

theorem select_month_ok (m : MonthEnv) (h : month_raises m = false) :
    ∃ b, select_month m = .ok b := by
  unfold month_raises at h
  unfold select_month
  cases hc : m.clickOk with
  | false => exact ⟨false, rfl⟩
  | true =>
    rw [hc] at h
    simp only [Bool.true_and] at h
    simp only [hc, Bool.not_true, Bool.false_eq_true, if_false, h, Bool.false_eq_true, if_false]
    cases select_pick m.opts m.draw with
    | none => exact ⟨false, rfl⟩
    | some i => exact ⟨true, rfl⟩

theorem combo_ok (c : ComboEnv) (h : combo_raises c = false) :
    ∃ b, select_random_option_from_combobox c = .ok b := by
  unfold combo_raises at h
  unfold select_random_option_from_combobox
  cases hc : c.clickOk with
  | false => exact ⟨false, rfl⟩
  | true =>
    rw [hc] at h
    simp only [Bool.true_and, Bool.not_eq_false'] at h
    simp only [hc, Bool.not_true, Bool.false_eq_true, if_false, h, Bool.not_true,
      Bool.false_eq_true, if_false]
    cases select_pick c.opts c.draw with
    | none => exact ⟨false, rfl⟩
    | some i => exact ⟨true, rfl⟩

theorem parseCompletion_chars (content : String) (r : Nat) :
    ∀ c ∈ (parseCompletion content r).handle.data, keepChar c = true := by
  have h : ∃ s, (parseCompletion content r).handle = sanitizeHandle s := by
    simp only [parseCompletion]
    cases h : splitFirstArrow (pyStrip content) with
    | none => exact ⟨_, rfl⟩
    | some p => exact ⟨_, rfl⟩
  obtain ⟨s, hs⟩ := h
  rw [hs]
  exact sanitize_chars s

/-! ### Claim theorems -/

/-- C2 (amended): the identity generator fails with an upstream-service
error iff the generation service's status is not exactly 200 (so a
non-200 2xx status such as 201 is also fatal); for every status-200
response whose body yields a completion string, it returns a well-formed
Identity, regardless of the completion's content. A status-200 response
whose body does not have the expected JSON shape instead raises a
non-upstream parse exception. -/
theorem generator_status_contract (status : Nat) (body : Option String) (r : Nat) :
    ((generate_mexican_email status body r = .error (.upstream status)) ↔ status ≠ 200) ∧
    (∀ content, status = 200 → body = some content →
      ∃ ident, generate_mexican_email status body r = .ok ident ∧
        ∀ c ∈ ident.handle.data, keepChar c = true) := by
  constructor
  · constructor
    · intro h hst
      subst hst
      unfold generate_mexican_email at h
      simp only [ne_eq, not_true_eq_false, if_false, ite_false] at h
      cases body with
      | none => simp at h
      | some content => simp at h
    · intro h
      unfold generate_mexican_email
      simp [h]
  · intro content hst hbody
    subst hst
    subst hbody
    exact ⟨parseCompletion content r, by simp [generate_mexican_email],
      parseCompletion_chars content r⟩

/-- C2, counterexample to the claim as stated: a 201 status is
2xx-equivalent ("success"), yet the generator raises the upstream error;
and a 200 status with a malformed response body throws rather than
returning an Identity. -/
theorem generator_status_counterexample :
    generate_mexican_email 201 (some "Ana Diaz -> ana_diaz_123") 0 =
        .error (.upstream 201) ∧
    (200 ≤ 201 ∧ 201 < 300) ∧
    generate_mexican_email 200 none 0 = .error .parse := by
  refine ⟨rfl, ⟨by decide, by decide⟩, rfl⟩

/-- C2, witness: the amended contract applied at a concrete 200-status
response with a content-malformed (arrow-free) completion. -/
theorem generator_status_witness :
    ∃ ident, generate_mexican_email 200 (some "no separator at all") 7 = .ok ident ∧
      ∀ c ∈ ident.handle.data, keepChar c = true :=
  (generator_status_contract 200 (some "no separator at all") 7).2
    "no separator at all" rfl rfl

/-- C3 (amended): for every completion containing `->`, the parsed handle
equals the substring after the first `->`, trimmed of whitespace and
filtered to Python-alphanumeric-or-underscore characters (a Unicode-aware
class that also keeps accented Latin-1 letters, strictly larger than
`[A-Za-z0-9_]`); for every completion lacking `->`, the handle is
`carlos_ramirez_` followed by a freshly sampled integer in [100, 999]. -/
theorem parsed_handle_shape (content : String) (r : Nat) :
    (∀ pre post, splitFirstArrow (pyStrip content) = some (pre, post) →
      (parseCompletion content r).handle = sanitizeHandle (pyStrip post)) ∧
    (splitFirstArrow (pyStrip content) = none →
      (parseCompletion content r).handle =
          "carlos_ramirez_" ++ natRepr (randint 100 999 r) ∧
      100 ≤ randint 100 999 r ∧ randint 100 999 r ≤ 999) := by
  constructor
  · intro pre post h
    simp only [parseCompletion, h]
  · intro h
    refine ⟨?_, ?_, ?_⟩
    · simp only [parseCompletion, h]
      exact fallback_handle _
    · unfold randint
      omega
    · unfold randint
      omega

/-- C3, counterexample to the claim as stated: Python's `str.isalnum` is
Unicode-aware, so the accented letter í survives sanitization, while the
spec's ASCII class `[A-Za-z0-9_]` would drop it. -/
theorem parsed_handle_counterexample :
    splitFirstArrow (pyStrip "Carlos Ramirez -> carlos_ramírez_123") =
        some ("Carlos Ramirez ", " carlos_ramírez_123") ∧
    (parseCompletion "Carlos Ramirez -> carlos_ramírez_123" 0).handle =
        "carlos_ramírez_123" ∧
    specSanitize (pyStrip " carlos_ramírez_123") = "carlos_ramrez_123" ∧
    "carlos_ramírez_123" ≠ "carlos_ramrez_123" := by
  refine ⟨by decide, by decide, by decide, by decide⟩

/-- C3, witness: the amended statement applied at a concrete arrow-free
completion, exhibiting the fallback handle with its sampled suffix. -/
theorem parsed_handle_witness :
    (parseCompletion "malformed output" 317).handle =
        "carlos_ramirez_" ++ natRepr (randint 100 999 317) ∧
    100 ≤ randint 100 999 317 ∧ randint 100 999 317 ≤ 999 :=
  (parsed_handle_shape "malformed output" 317).2 (by decide)

/-- C4 (amended): every character of a returned handle is
Python-alphanumeric or underscore (a superset of `[a-zA-Z0-9_]` that also
admits accented Latin-1 letters), and the handle is non-empty whenever the
completion lacks `->` (the fallback branch); when `->` is present the
handle can be empty. -/
theorem handle_invariant (content : String) (r : Nat) :
    (∀ c ∈ (parseCompletion content r).handle.data, keepChar c = true) ∧
    (splitFirstArrow (pyStrip content) = none →
      (parseCompletion content r).handle ≠ "") := by
  refine ⟨parseCompletion_chars content r, fun h => ?_⟩
  have h2 : (parseCompletion content r).handle =
      "carlos_ramirez_" ++ natRepr (randint 100 999 r) := by
    simp only [parseCompletion, h]
    exact fallback_handle _
  rw [h2]
  intro hc
  have hdata : ("carlos_ramirez_" ++ natRepr (randint 100 999 r)).data = [] := by
    rw [hc]
  rw [data_append] at hdata
  have := List.append_eq_nil.mp hdata
  exact absurd this.1 (by decide)

/-- C4, counterexample to the claim as stated: the completion `"x -> !!!"`
yields an empty handle (violating non-emptiness), and the completion
`"a -> josé"` yields a handle containing é, which is outside
`[a-zA-Z0-9_]`. -/
theorem handle_invariant_counterexample :
    (parseCompletion "x -> !!!" 0).handle = "" ∧
    'é' ∈ (parseCompletion "a -> josé" 0).handle.data ∧
    ('é'.isAlphanum || 'é' = '_') = false := by
  refine ⟨by decide, by decide, by decide⟩

/-- C4, witness: the amended invariant applied at a concrete arrow-free
completion. -/
theorem handle_invariant_witness :
    (parseCompletion "just words" 55).handle ≠ "" :=
  (handle_invariant "just words" 55).2 (by decide)

/-- C5: password derivation is a pure function of the accepted Identity —
whenever the display name has a first token, the password is its
lowercasing concatenated with the fixed suffix `"@12345"`; and the scenario
completion `"Carlos Ramirez -> carlos_ramirez_417"` yields the Identity
`{displayName := "Carlos Ramirez", handle := "carlos_ramirez_417"}` and the
password `"carlos@12345"`. -/
theorem password_derivation :
    (∀ (ident : Identity) (f l : String),
      derive_names ident.displayName = some (f, l) →
      post_acceptance ident = .ok (f, l, pyLower f ++ "@12345")) ∧
    (∀ r, parseCompletion "Carlos Ramirez -> carlos_ramirez_417" r =
        ⟨"Carlos Ramirez", "carlos_ramirez_417"⟩ ∧
      post_acceptance ⟨"Carlos Ramirez", "carlos_ramirez_417"⟩ =
        .ok ("Carlos", "Ramirez", "carlos@12345")) := by
  constructor
  · intro ident f l h
    simp [post_acceptance, h, derive_password]
  · intro r
    exact ⟨rfl, rfl⟩

/-- C5, witness: the derivation applied at a concrete accepted Identity. -/
theorem password_derivation_witness :
    post_acceptance ⟨"Ana Diaz", "ana_diaz_900"⟩ =
      .ok ("Ana", "Diaz", pyLower "Ana" ++ "@12345") :=
  password_derivation.1 ⟨"Ana Diaz", "ana_diaz_900"⟩ "Ana" "Diaz" (by decide)

/-- C8: handle sanitization is idempotent — re-sanitizing an
already-sanitized string yields it unchanged. -/
theorem sanitize_idem (s : String) : sanitizeHandle (sanitizeHandle s) = sanitizeHandle s := by
  cases s with
  | mk l => exact congrArg String.mk (filter_keep_idem l)

/-- C9: deriving first/last name from the accepted Identity is partial —
a whitespace-only (or empty) display name makes the controller fail with an
indexing error right after handle acceptance, and a one-token display name
yields that token as both first and last name. -/
theorem name_derivation_domain :
    (∀ ident : Identity, (∀ c ∈ ident.displayName.data, pyIsSpace c = true) →
      post_acceptance ident = .error .indexError) ∧
    (∀ (ident : Identity) (t : String), pySplit ident.displayName = [t] →
      post_acceptance ident = .ok (t, t, derive_password t)) := by
  constructor
  · intro ident h
    have hsplit : pySplit ident.displayName = [] := pySplitGo_all_space _ h
    simp [post_acceptance, derive_names, hsplit]
  · intro ident t h
    simp [post_acceptance, derive_names, h]

/-- C9, witness: the partiality applied at a whitespace-only display name
and at a one-token display name. -/
theorem name_derivation_witness :
    post_acceptance ⟨"   ", "h1"⟩ = .error .indexError ∧
    post_acceptance ⟨"Carlos", "h2"⟩ = .ok ("Carlos", "Carlos", derive_password "Carlos") :=
  ⟨name_derivation_domain.1 ⟨"   ", "h1"⟩ (by decide),
   name_derivation_domain.2 ⟨"Carlos", "h2"⟩ "Carlos" (by decide)⟩

theorem fill_first_last_name_ok (e : NameEnv) : fill_first_last_name e = .ok () := by
  unfold fill_first_last_name
  split <;> rfl

/-- C6: in a handle-loop iteration whose submission did not time out, if
the concatenated visible-alert text contains `"already"` the controller
does not accept in that iteration — it moves to the next iteration (a
fresh generator call), and any eventually accepted Identity comes from a
strictly later iteration; if the text does not contain `"already"`, it
accepts the current iteration's Identity without regenerating. -/
theorem conflict_regenerates (idents : Nat → Identity) (env : Nat → HandleEnv)
    (fuel i : Nat) (hfill : (env i).fillTimeout = false) :
    (strContains (alert_text (env i).alerts) "already" = true →
      handle_loop idents env (fuel + 1) i = handle_loop idents env fuel (i + 1) ∧
      ∀ ident j, handle_loop idents env (fuel + 1) i = some (ident, j) → i + 1 ≤ j) ∧
    (strContains (alert_text (env i).alerts) "already" = false →
      handle_loop idents env (fuel + 1) i = some (idents i, i)) := by
  constructor
  · intro h
    have heq : handle_loop idents env (fuel + 1) i = handle_loop idents env fuel (i + 1) := by
      rw [handle_loop]
      simp [hfill, h]
    refine ⟨heq, fun ident j hj => ?_⟩
    rw [heq] at hj
    exact handle_loop_start_le idents env fuel (i + 1) (ident, j) hj
  · intro h
    rw [handle_loop]
    simp [hfill, h]

/-- C6, witness: with a visible "already taken" alert in iteration 0 the
loop regenerates and accepts the fresh iteration-1 candidate; with no
alert the current candidate is accepted immediately. -/
theorem conflict_regenerates_witness :
    handle_loop (fun i => ⟨"Name", natRepr i⟩)
        (fun i => if i = 0 then ⟨false, [⟨true, " that one is already taken "⟩]⟩
          else ⟨false, []⟩) 3 0 =
      handle_loop (fun i => ⟨"Name", natRepr i⟩)
        (fun i => if i = 0 then ⟨false, [⟨true, " that one is already taken "⟩]⟩
          else ⟨false, []⟩) 2 1 ∧
    handle_loop (fun i => ⟨"Name", natRepr i⟩)
        (fun i => if i = 0 then ⟨false, [⟨true, " that one is already taken "⟩]⟩
          else ⟨false, []⟩) 3 1 = some (⟨"Name", natRepr 1⟩, 1) :=
  ⟨((conflict_regenerates (fun i => ⟨"Name", natRepr i⟩)
      (fun i => if i = 0 then ⟨false, [⟨true, " that one is already taken "⟩]⟩
        else ⟨false, []⟩) 2 0 rfl).1 (by decide)).1,
   (conflict_regenerates (fun i => ⟨"Name", natRepr i⟩)
      (fun i => if i = 0 then ⟨false, [⟨true, " that one is already taken "⟩]⟩
        else ⟨false, []⟩) 2 1 rfl).2 (by decide)⟩

/-- C7: for a dropdown with at least one option, the selection step picks a
currently visible option whenever any option is visible (never an invisible
one), for every random draw; and deterministically picks index 0 when no
option is visible. -/
theorem dropdown_selection (opts : List UIOption) (r : Nat) (hne : opts ≠ []) :
    (visible_indices opts ≠ [] →
      ∃ i, select_pick opts r = some i ∧ i < opts.length ∧
        (opts.getD i default).visible = true) ∧
    (visible_indices opts = [] → select_pick opts r = some 0) := by
  have hlen : opts.length ≠ 0 := fun h => hne (List.length_eq_zero.mp h)
  constructor
  · intro hvis
    obtain ⟨i, hpick, hmem⟩ := select_pick_of_visible opts r hlen hvis
    obtain ⟨hi, hv⟩ := (visible_indices_spec opts i).mp hmem
    exact ⟨i, hpick, hi, hv⟩
  · intro hvis
    exact select_pick_no_visible opts r hlen hvis

/-- C7, witness: the selection applied to a three-option dropdown with two
visible options, and to a two-option dropdown with none visible. -/
theorem dropdown_selection_witness :
    (∃ i, select_pick [⟨false, "January"⟩, ⟨true, "February"⟩, ⟨true, "March"⟩] 7 = some i ∧
      i < 3 ∧
      (([⟨false, "January"⟩, ⟨true, "February"⟩, ⟨true, "March"⟩] :
          List UIOption).getD i default).visible = true) ∧
    select_pick [⟨false, "January"⟩, ⟨false, "February"⟩] 5 = some 0 :=
  ⟨(dropdown_selection [⟨false, "January"⟩, ⟨true, "February"⟩, ⟨true, "March"⟩] 7
      (by decide)).1 (by decide),
   (dropdown_selection [⟨false, "January"⟩, ⟨false, "February"⟩] 5 (by decide)).2 (by decide)⟩

/-- C10: the challenge-detection step never raises — whenever the run
reaches it, it reaches the terminal pause; a found marker signals that
manual action is required, and every other wait outcome (timeout or any
other exception) is absorbed into a logged warning; moreover, changing the
challenge outcome to anything at all still yields a normal completion. -/
theorem challenge_detection_total (e : LaterEnv) (s : FinalState)
    (h : main_later e = .ok s) :
    s.reachedTerminalPause = true ∧
    (e.challenge = .found → s.challengeResult = .manualActionRequired) ∧
    (e.challenge ≠ .found → s.challengeResult = .warnedAbsent) ∧
    (∀ o, main_later ⟨e.password, e.birthdate, e.nameEnv, o⟩ =
      .ok ⟨challenge_check o, true⟩) := by
  cases hfp : fill_password e.password with
  | error err =>
    rw [main_later] at h
    simp [hfp, Bind.bind, Except.bind] at h
  | ok u =>
    cases hfb : fill_birthdate e.birthdate with
    | error err =>
      rw [main_later] at h
      simp [hfp, hfb, Bind.bind, Except.bind] at h
    | ok y =>
      have hs : s = ⟨challenge_check e.challenge, true⟩ := by
        rw [main_later] at h
        simp [hfp, hfb, fill_first_last_name_ok, Bind.bind, Except.bind, pure,
          Except.pure] at h
        exact h.symm
      subst hs
      refine ⟨rfl, ?_, ?_, ?_⟩
      · intro hc
        simp [hc, challenge_check]
      · intro hc
        cases hco : e.challenge with
        | found => exact absurd hco hc
        | timedOut => simp [challenge_check]
        | otherError => simp [challenge_check]
      · intro o
        rw [main_later]
        simp [hfp, hfb, fill_first_last_name_ok, Bind.bind, Except.bind, pure, Except.pure]

/-- C10, witness: the challenge-step guarantees applied at a concrete run
whose wait for the challenge marker timed out. -/
theorem challenge_detection_witness :
    (⟨ChallengeResult.warnedAbsent, true⟩ : FinalState).reachedTerminalPause = true ∧
    ((⟨⟨true⟩, ⟨⟨true, true, true, [⟨true, "January"⟩], 0⟩,
        ⟨true, true, true, [⟨true, "January"⟩], 0⟩, ⟨true, true, [⟨true, "1"⟩], 0⟩, 0⟩,
        ⟨true⟩, .timedOut⟩ : LaterEnv).challenge = .found →
      (⟨ChallengeResult.warnedAbsent, true⟩ : FinalState).challengeResult =
        .manualActionRequired) ∧
    ((⟨⟨true⟩, ⟨⟨true, true, true, [⟨true, "January"⟩], 0⟩,
        ⟨true, true, true, [⟨true, "January"⟩], 0⟩, ⟨true, true, [⟨true, "1"⟩], 0⟩, 0⟩,
        ⟨true⟩, .timedOut⟩ : LaterEnv).challenge ≠ .found →
      (⟨ChallengeResult.warnedAbsent, true⟩ : FinalState).challengeResult = .warnedAbsent) ∧
    (∀ o, main_later ⟨⟨true⟩, ⟨⟨true, true, true, [⟨true, "January"⟩], 0⟩,
        ⟨true, true, true, [⟨true, "January"⟩], 0⟩, ⟨true, true, [⟨true, "1"⟩], 0⟩, 0⟩,
        ⟨true⟩, o⟩ = .ok ⟨challenge_check o, true⟩) :=
  challenge_detection_total
    ⟨⟨true⟩, ⟨⟨true, true, true, [⟨true, "January"⟩], 0⟩,
      ⟨true, true, true, [⟨true, "January"⟩], 0⟩, ⟨true, true, [⟨true, "1"⟩], 0⟩, 0⟩,
      ⟨true⟩, .timedOut⟩ ⟨.warnedAbsent, true⟩ rfl

/-- C1 (amended): besides ConfigurationError and UpstreamServiceError,
three UI-timing failures in the later steps also terminate the process
abnormally — an uncaught timeout of the password-field wait, of the
day-dropdown option wait (after a successful click), or of the month option
wait on both the initial and the retried click. All other UI-timing
failures (month expand-icon click timeout, empty option lists, name-entry
wait timeout, any challenge-wait outcome) are absorbed locally and the run
reaches the terminal pause. -/
theorem later_steps_propagation (e : LaterEnv)
    (hp : e.password.fieldAppears = true)
    (h1 : month_raises e.birthdate.month1 = false)
    (h2 : month_raises e.birthdate.month2 = false)
    (hd : combo_raises e.birthdate.day = false) :
    ∃ s, main_later e = .ok s ∧ s.reachedTerminalPause = true := by
  obtain ⟨b1, hb1⟩ := select_month_ok e.birthdate.month1 h1
  obtain ⟨b2, hb2⟩ := select_month_ok e.birthdate.month2 h2
  obtain ⟨b3, hb3⟩ := combo_ok e.birthdate.day hd
  have hfp : fill_password e.password = .ok () := by
    unfold fill_password
    simp [hp]
  have hfb : ∃ y, fill_birthdate e.birthdate = .ok y := by
    unfold fill_birthdate
    cases b1 with
    | false => simp [Bind.bind, Except.bind, hb1, hb2, hb3, pure, Except.pure]
    | true => simp [Bind.bind, Except.bind, hb1, hb3, pure, Except.pure]
  obtain ⟨y, hy⟩ := hfb
  refine ⟨⟨challenge_check e.challenge, true⟩, ?_, rfl⟩
  rw [main_later]
  simp [Bind.bind, Except.bind, hfp, hy, fill_first_last_name_ok, pure, Except.pure]

/-- C1, counterexample to the claim as stated: three runs whose only
deviations are UI-timing failures in the later steps — a password-field
wait timeout, a month option wait that times out on both the initial and
the retried click, and a day-dropdown option wait timeout — each propagate
a PlaywrightTimeoutError out of the controller instead of being absorbed. -/
theorem later_steps_counterexample :
    main_later ⟨⟨false⟩, ⟨⟨true, true, true, [⟨true, "January"⟩], 0⟩,
        ⟨true, true, true, [⟨true, "January"⟩], 0⟩, ⟨true, true, [⟨true, "1"⟩], 0⟩, 0⟩,
        ⟨true⟩, .timedOut⟩ = .error .timeout ∧
    main_later ⟨⟨true⟩, ⟨⟨true, false, false, [⟨true, "January"⟩], 0⟩,
        ⟨true, true, true, [⟨true, "January"⟩], 0⟩, ⟨true, true, [⟨true, "1"⟩], 0⟩, 0⟩,
        ⟨true⟩, .timedOut⟩ = .error .timeout ∧
    main_later ⟨⟨true⟩, ⟨⟨true, true, true, [⟨true, "January"⟩], 0⟩,
        ⟨true, true, true, [⟨true, "January"⟩], 0⟩, ⟨true, false, [⟨true, "1"⟩], 0⟩, 0⟩,
        ⟨true⟩, .timedOut⟩ = .error .timeout :=
  ⟨rfl, rfl, rfl⟩

/-- C1, witness: a run in which the month expand-icon click fails, the
retried month attempt sees an empty option list, the day-dropdown click
fails, the name inputs never appear and the challenge wait raises an
arbitrary exception — all absorbed, and the run completes normally. -/
theorem later_steps_witness :
    ∃ s, main_later ⟨⟨true⟩, ⟨⟨false, true, true, [], 0⟩, ⟨true, true, true, [], 0⟩,
        ⟨false, true, [], 0⟩, 0⟩, ⟨false⟩, .otherError⟩ = .ok s ∧
      s.reachedTerminalPause = true :=
  later_steps_propagation
    ⟨⟨true⟩, ⟨⟨false, true, true, [], 0⟩, ⟨true, true, true, [], 0⟩,
      ⟨false, true, [], 0⟩, 0⟩, ⟨false⟩, .otherError⟩ rfl (by decide) (by decide) (by decide)

end OutlookOpener
